import Mathlib

/-!
Verification development for `celldesigner2qual.py`, a one-file converter from
CellDesigner-annotated SBML Level 2 models to SBML-qual Level 3 documents.

The Python program is embedded shallowly:
* the parts of the input XML tree that the program reads become Lean
  structures, with `Option` fields for elements and attributes that may be
  absent (`Element.find` returning `None`, `Element.get` returning `None`);
* Python exceptions (`AttributeError` on `None`, `TypeError` on `str + None`
  concatenation) and `exit(1)` become `Except String`;
* the species dictionary (`nameconv`) becomes an insertion-ordered
  association list, matching Python 3.7+ dict semantics;
* the emitted XML becomes an element tree `XElem`; writing it out is a
  serializer that, like `ElementTree.write`, fails on a `None` attribute
  value.
-/

set_option maxHeartbeats 1000000
set_option linter.unnecessarySimpa false

/-- Namespace URI bound to the `sbml` key in `NS` (SBML Level 2 Version 4). -/
def NSsbml : String := "http://www.sbml.org/sbml/level2/version4"

/-- Namespace URI bound to the `sbml3` key in `NS`. -/
def NSsbml3 : String := "http://www.sbml.org/sbml/level3/version1/core"

/-- Namespace URI bound to the `layout` key in `NS`. -/
def NSlayout : String := "http://www.sbml.org/sbml/level3/version1/layout/version1"

/-- Namespace URI bound to the `qual` key in `NS`. -/
def NSqual : String := "http://www.sbml.org/sbml/level3/version1/qual/version1"

/-- The root tag `read_celldesigner` requires: ElementTree renders a
namespaced tag as the URI in braces followed by the local name. -/
def expectedRoot : String := "\x7b" ++ NSsbml ++ "\x7dsbml"

/-- Python `f'...{x}...'` interpolation of a value that may be `None`:
`None` prints as the string `None`. -/
def pyStr : Option String → String
  | none => "None"
  | some s => s

/-- One reaction influence stored in a species record: the tuple
`(rtype, reacs, mods)` appended by `get_transitions` (line 77). -/
structure ReactionInfluence where
  rtype : Option String
  reacs : List (Option String)
  mods : List (Option String × Option String)
deriving DecidableEq

/-- One value of the `nameconv` dictionary built in `species_info`
(lines 50-60), field order as in the Python dict literal. -/
structure SpeciesRecord where
  activity : Option String
  x : Option String
  y : Option String
  h : Option String
  w : Option String
  transitions : List ReactionInfluence
  name : Option String
  type : Option String
  modifications : List (Option String)
deriving DecidableEq

/-- `nameconv`: a Python 3.7+ dict from alias id (the value of `.get('id')`,
possibly `None`) to record, insertion ordered. -/
abbrev SpeciesTable := List (Option String × SpeciesRecord)

/-- Python dict assignment `d[k] = v`: overwrite in place if the key exists
(keeping its position), otherwise append. -/
def dictInsert (k : Option String) (v : SpeciesRecord) : SpeciesTable → SpeciesTable
  | [] => [(k, v)]
  | e :: rest => if e.1 = k then (k, v) :: rest else e :: dictInsert k v rest

/-- Python `k in d` membership test. -/
def dictMem (k : Option String) (t : SpeciesTable) : Bool :=
  t.any (fun e => decide (e.1 = k))

/-- Python dict lookup `d[k]` (first entry with the key). -/
def dictGet (k : Option String) : SpeciesTable → Option SpeciesRecord
  | [] => none
  | e :: rest => if e.1 = k then some e.2 else dictGet k rest

/-- Python `d[k]['transitions'].append(i)`: extend the transitions list of
the entry with key `k` in place. -/
def dictAppendTrans (k : Option String) (i : ReactionInfluence) (t : SpeciesTable) : SpeciesTable :=
  t.map (fun e => if e.1 = k then (e.1, { e.2 with transitions := e.2.transitions ++ [i] }) else e)

/-- The `cd:bounds` element of an alias: the four attributes read with
`.get` in lines 52-55, each possibly absent. -/
structure CDBounds where
  x : Option String
  y : Option String
  h : Option String
  w : Option String
deriving DecidableEq

/-- A `cd:complexSpeciesAlias` or `cd:speciesAlias` element as read by
`species_info`: its `id`, `species` and `compartmentAlias` attributes, the
first `.//cd:activity` descendant (with its text) and the first
`.//cd:bounds` descendant. -/
structure CDAlias where
  idAttr : Option String
  speciesAttr : Option String
  compartmentAliasAttr : Option String
  activityElem : Option (Option String)
  boundsElem : Option CDBounds
deriving DecidableEq

/-- The `cd:listOfModifications` element inside a species annotation:
its `cd:modification` children's `state` attributes, plus the number of
other child elements (relevant only for Python element truthiness, which
is the child count). -/
structure CDListOfMods where
  states : List (Option String)
  otherChildren : Nat
deriving DecidableEq

/-- The `sbml:annotation` element of a species definition as read by
`species_info`: the first `.//cd:class` descendant (with its text) and the
first `.//cd:listOfModifications` descendant. -/
structure CDSpeciesAnnot where
  clsElem : Option (Option String)
  listOfModsElem : Option CDListOfMods
deriving DecidableEq

/-- An `sbml:species` element: `id` and `name` attributes and its
`sbml:annotation` child. -/
structure SBMLSpecies where
  idAttr : Option String
  nameAttr : Option String
  annotElem : Option CDSpeciesAnnot
deriving DecidableEq

/-- The `sbml:annotation/cd:extension` element of a reaction as read by
`get_transitions` (lines 67-74): the `cd:reactionType` child (with its
text), the `alias` attributes of the `cd:baseReactant` children, the
`alias` attributes of the `cd:baseProduct` children, and the
`(type, aliases)` attribute pairs of the `cd:modification` children. -/
structure CDReactionAnnot where
  rtypeElem : Option (Option String)
  baseReactants : List (Option String)
  baseProducts : List (Option String)
  modifications : List (Option String × Option String)
deriving DecidableEq

/-- An `sbml:reaction` element: its `sbml:annotation/cd:extension` child. -/
structure CDReaction where
  ext : Option CDReactionAnnot
deriving DecidableEq

/-- The `sbml:model` element: the alias lists scanned by `species_info`,
the species definitions, and the reactions. -/
structure CDModel where
  complexSpeciesAliases : List CDAlias
  speciesAliases : List CDAlias
  listOfSpecies : List SBMLSpecies
  reactions : List CDReaction
deriving DecidableEq

/-- The parsed input document: root tag and the `sbml:model` child. -/
structure XMLDoc where
  rootTag : String
  modelElem : Option CDModel
deriving DecidableEq

/-- `get_class` (lines 83-87): the text of the `cd:class` element if it is
present, `'PROTEIN'` if the element is absent. -/
def get_class : Option (Option String) → Option String
  | some t => t
  | none => some "PROTEIN"

/-- `get_mods` (lines 90-96): if the `cd:listOfModifications` element is
present and truthy (a Python `Element` is truthy iff it has children),
collect the `state` attribute of each `cd:modification` child; otherwise
the empty list. -/
def get_mods : Option CDListOfMods → List (Option String)
  | none => []
  | some l => if l.states.length + l.otherChildren ≠ 0 then l.states else []

/-- The combined alias sequence scanned by `species_info` (lines 33-42):
complex species aliases first, then simple species aliases, keeping only
those carrying a `compartmentAlias` attribute (the `[@compartmentAlias]`
XPath filter). -/
def selectedAliases (m : CDModel) : List CDAlias :=
  m.complexSpeciesAliases.filter (fun a => a.compartmentAliasAttr.isSome) ++
    m.speciesAliases.filter (fun a => a.compartmentAliasAttr.isSome)

/-- The body of the `species_info` loop for one alias (lines 43-60).
Failure points, in the order the Python statements raise:
`.text` on a missing activity element (line 43), string concatenation with
a `None` `species` attribute (lines 45-46), `.find` on a failed species
lookup (line 47), `.find` on a missing annotation (line 48), and `.get` on
a missing bounds element (line 52). -/
def processAlias (m : CDModel) (a : CDAlias) : Except String (Option String × SpeciesRecord) :=
  match a.activityElem with
  | none => Except.error "AttributeError: NoneType object has no attribute text"
  | some activity =>
    match a.speciesAttr with
    | none => Except.error "TypeError: can only concatenate str (not NoneType) to str"
    | some sref =>
      match m.listOfSpecies.find? (fun x => decide (x.idAttr = some sref)) with
      | none => Except.error "AttributeError: NoneType object has no attribute find"
      | some sbml =>
        match sbml.annotElem with
        | none => Except.error "AttributeError: NoneType object has no attribute findall"
        | some annot =>
          let cls := get_class annot.clsElem
          let mods := get_mods annot.listOfModsElem
          match a.boundsElem with
          | none => Except.error "AttributeError: NoneType object has no attribute get"
          | some bound =>
            Except.ok (a.idAttr,
              { activity := activity, x := bound.x, y := bound.y, h := bound.h, w := bound.w,
                transitions := [], name := sbml.nameAttr, type := cls, modifications := mods })

/-- The `species_info` loop over the combined alias sequence, threading the
`nameconv` dict; an exception aborts the whole loop. -/
def speciesLoop (m : CDModel) : List CDAlias → SpeciesTable → Except String SpeciesTable
  | [], acc => Except.ok acc
  | a :: as, acc =>
    match processAlias m a with
    | Except.error e => Except.error e
    | Except.ok kr => speciesLoop m as (dictInsert kr.1 kr.2 acc)

/-- `species_info` (lines 30-61). -/
def species_info (m : CDModel) : Except String SpeciesTable :=
  speciesLoop m (selectedAliases m) []

/-- The inner product loop of `get_transitions` (lines 75-79), also
accumulating the diagnostic lines printed for unknown species. -/
def applyProds (influ : ReactionInfluence) :
    List (Option String) → SpeciesTable × List String → SpeciesTable × List String
  | [], acc => acc
  | p :: ps, (info, diags) =>
    if dictMem p info then
      applyProds influ ps (dictAppendTrans p influ info, diags)
    else
      applyProds influ ps (info, diags ++ ["ignoring unknown species " ++ pyStr p])

/-- The influence tuple `(rtype, reacs, mods)` built for one reaction by
`get_transitions` (lines 68-74). -/
def influenceOf (A : CDReactionAnnot) (rt : Option String) : ReactionInfluence :=
  { rtype := rt, reacs := A.baseReactants, mods := A.modifications }

/-- The body of the `get_transitions` loop for one reaction (lines 67-79).
It raises if the `cd:extension` annotation (line 67) or the
`cd:reactionType` child (line 68) is missing. -/
def processReaction (acc : SpeciesTable × List String) (r : CDReaction) :
    Except String (SpeciesTable × List String) :=
  match r.ext with
  | none => Except.error "AttributeError: NoneType object has no attribute find"
  | some annot =>
    match annot.rtypeElem with
    | none => Except.error "AttributeError: NoneType object has no attribute text"
    | some rtype =>
      Except.ok (applyProds (influenceOf annot rtype) annot.baseProducts acc)

/-- The `get_transitions` loop over all reactions. -/
def transLoop : List CDReaction → SpeciesTable × List String →
    Except String (SpeciesTable × List String)
  | [], acc => Except.ok acc
  | r :: rs, acc =>
    match processReaction acc r with
    | Except.error e => Except.error e
    | Except.ok acc2 => transLoop rs acc2

/-- `get_transitions` (lines 64-80): returns the mutated table together
with the diagnostic lines printed to stdout. -/
def get_transitions (m : CDModel) (info : SpeciesTable) :
    Except String (SpeciesTable × List String) :=
  transLoop m.reactions (info, [])

mutual

/-- An element of the output tree, as assembled with `etree.Element` /
`etree.SubElement`: a tag, an ordered attribute list whose values are the
Python objects passed in (possibly `None`), and the ordered children. -/
inductive XElem : Type where
  | mk (tag : String) (attrsL : List (String × Option String)) (children : XList)

/-- A sequence of sibling elements. -/
inductive XList : Type where
  | nil : XList
  | cons (e : XElem) (rest : XList) : XList

end

/-- Build an `XList` from a `List` literal. -/
def xl : List XElem → XList
  | [] => XList.nil
  | e :: es => XList.cons e (xl es)

/-- Convert an `XList` back to a `List`. -/
def XList.toList : XList → List XElem
  | .nil => []
  | .cons e rest => e :: rest.toList

/-- Tag of an element. -/
def XElem.tagName : XElem → String
  | .mk t _ _ => t

/-- Attribute list of an element. -/
def XElem.attrsL : XElem → List (String × Option String)
  | .mk _ a _ => a

/-- Children of an element, as a `List`. -/
def XElem.children : XElem → List XElem
  | .mk _ _ c => c.toList

/-- Look up an attribute by name (first occurrence). -/
def XElem.attr (e : XElem) (k : String) : Option (Option String) :=
  (e.attrsL.find? (fun p => decide (p.1 = k))).map Prod.snd

/-- Serialize an attribute list; like `ElementTree.write`, a `None` value
raises a `TypeError`. -/
def serializeAttrs : List (String × Option String) → Except String String
  | [] => Except.ok ""
  | (k, none) :: _ =>
    Except.error ("TypeError: cannot serialize None (attribute " ++ k ++ ")")
  | (k, some v) :: rest =>
    match serializeAttrs rest with
    | Except.error e => Except.error e
    | Except.ok r => Except.ok (" " ++ k ++ "=\x22" ++ v ++ "\x22" ++ r)

mutual

/-- Serialize one element depth-first, modelling `ElementTree.write`. -/
def XElem.serialize : XElem → Except String String
  | .mk tag attrs children =>
    match serializeAttrs attrs with
    | Except.error e => Except.error e
    | Except.ok a =>
      match children.serializeAll with
      | Except.error e => Except.error e
      | Except.ok cs => Except.ok ("<" ++ tag ++ a ++ ">" ++ cs ++ "</" ++ tag ++ ">")

/-- Serialize a sequence of sibling elements in order. -/
def XList.serializeAll : XList → Except String String
  | .nil => Except.ok ""
  | .cons e rest =>
    match e.serialize with
    | Except.error err => Except.error err
    | Except.ok s =>
      match rest.serializeAll with
      | Except.error err => Except.error err
      | Except.ok rs => Except.ok (s ++ rs)

end

/-- The type tag bound to `modtype` in the input loop of `add_transitions`
(lines 156-157): a positional integer for a base reactant (produced by
`enumerate`), or the `type` attribute of a modification (a string or
`None`). -/
inductive PyTag : Type where
  | idx : Nat → PyTag
  | str : Option String → PyTag
deriving DecidableEq

/-- Python `modtype == 'INHIBITION'` (line 158): an integer or `None`
never equals a string. -/
def PyTag.eqLit : PyTag → String → Bool
  | .idx _, _ => false
  | .str none, _ => false
  | .str (some s), t => decide (s = t)

/-- The sequence `chain(enumerate(reaction[1]), reaction[2])` iterated for
one influence (lines 156-157): the base reactants paired with their
positional index, then the declared modifiers. -/
def influenceEntries (r : ReactionInfluence) : List (PyTag × Option String) :=
  r.reacs.enum.map (fun p => (PyTag.idx p.1, p.2)) ++
    r.mods.map (fun p => (PyTag.str p.1, p.2))

/-- The concatenation of the entry sequences of all influences of one
species, in `transitions` order. -/
def allEntries : List ReactionInfluence → List (PyTag × Option String)
  | [] => []
  | r :: rs => influenceEntries r ++ allEntries rs

/-- Pair every list element with its position, starting from `n`. -/
def withIdx (n : Nat) : List α → List (Nat × α)
  | [] => []
  | a :: as => (n, a) :: withIdx (n + 1) as

/-- One `qual:input` element (lines 162-167), with the sign computed by
lines 158-161. -/
def inputElem (species : Option String) (tag : PyTag) (modifier : Option String)
    (index : Nat) : XElem :=
  XElem.mk "qual:input"
    [("qual:qualitativeSpecies", modifier),
     ("qual:transitionEffect", some "none"),
     ("qual:sign", some (if tag.eqLit "INHIBITION" then "negative" else "positive")),
     ("qual:id", some ("tr_" ++ pyStr species ++ "_in_" ++ toString index))] XList.nil

/-- The inner loop of `add_transitions` over the entries of one influence,
threading the emitted inputs and the running `index` counter. -/
def entriesLoop (species : Option String) :
    List (PyTag × Option String) → List XElem × Nat → List XElem × Nat
  | [], acc => acc
  | e :: es, (acc, index) =>
    entriesLoop species es (acc ++ [inputElem species e.1 e.2 index], index + 1)

/-- The outer loop of `add_transitions` over the influences of one species
(lines 154-168): `index` starts at 0 per species and is never reset
between influences. -/
def inputsLoop (species : Option String) :
    List ReactionInfluence → List XElem × Nat → List XElem × Nat
  | [], acc => acc
  | r :: rs, acc => inputsLoop species rs (entriesLoop species (influenceEntries r) acc)

/-- The single `qual:output` element of a transition (lines 170-174). -/
def outputElem (species : Option String) : XElem :=
  XElem.mk "qual:output"
    [("qual:qualitativeSpecies", species),
     ("qual:transitionEffect", some "assignmentLevel"),
     ("qual:id", some ("tr_" ++ pyStr species ++ "_out"))] XList.nil

/-- The single `qual:defaultTerm` element of a transition (lines 176-178). -/
def defaultTermElem : XElem :=
  XElem.mk "qual:defaultTerm" [("qual:resultLevel", some "0")] XList.nil

/-- The `qual:transition` element emitted for one species by
`add_transitions` (lines 148-178). -/
def transitionElem (species : Option String) (d : SpeciesRecord) : XElem :=
  XElem.mk "qual:transition" [("qual:id", some ("tr_" ++ pyStr species))]
    (xl [XElem.mk "qual:listOfInputs" [] (xl (inputsLoop species d.transitions ([], 0)).1),
         XElem.mk "qual:listOfOutputs" [] (xl [outputElem species]),
         XElem.mk "qual:listOfFunctionTerms" [] (xl [defaultTermElem])])

/-- `add_transitions` (lines 146-178): one transition element per entry of
the species table, in table order. -/
def add_transitions (info : SpeciesTable) : List XElem :=
  info.map (fun p => transitionElem p.1 p.2)

/-- The `layout:speciesGlyph` element emitted for one species by
`add_positions` (lines 124-133). -/
def speciesGlyph (species : Option String) (d : SpeciesRecord) : XElem :=
  XElem.mk "layout:speciesGlyph" [("layout:species", species)]
    (xl [XElem.mk "layout:boundingBox" []
      (xl [XElem.mk "layout:position" [("layout:x", d.x), ("layout:y", d.y)] XList.nil,
           XElem.mk "layout:dimensions" [("layout:height", d.h), ("layout:width", d.w)] XList.nil])])

/-- The `qual:qualitativeSpecies` element emitted for one species by
`add_positions` (lines 134-143); note `qual:name` receives the raw `name`
value, which may be `None`. -/
def qualSpeciesElem (species : Option String) (d : SpeciesRecord) : XElem :=
  XElem.mk "qual:qualitativeSpecies"
    [("qual:maxLevel", some "1"),
     ("qual:compartment", some "comp1"),
     ("qual:name", d.name),
     ("qual:constant", some "false"),
     ("qual:id", species)] XList.nil

/-- `add_positions` (lines 120-143): the glyph list appended to the layout
and the qualitative species list, both in table order. -/
def add_positions (info : SpeciesTable) : List XElem × List XElem :=
  (info.map (fun p => speciesGlyph p.1 p.2),
   info.map (fun p => qualSpeciesElem p.1 p.2))

/-- The output tree assembled by `write_qual` (lines 99-115). -/
def qualRoot (info : SpeciesTable) : XElem :=
  XElem.mk "sbml"
    [("level", some "3"), ("version", some "1"), ("layout:required", some "false"),
     ("xmlns", some NSsbml3), ("qual:required", some "true"),
     ("xmlns:layout", some NSlayout), ("xmlns:qual", some NSqual)]
    (xl [XElem.mk "model" [("id", some "model_id")]
      (xl [XElem.mk "listOfCompartments" []
            (xl [XElem.mk "compartment" [("constant", some "true"), ("id", some "comp1")] XList.nil]),
           XElem.mk "layout:listOfLayouts" []
            (xl [XElem.mk "layout:layout" []
              (xl [XElem.mk "layout:listOfSpeciesGlyphs" [] (xl (add_positions info).1)])]),
           XElem.mk "qual:listOfQualitativeSpecies" [] (xl (add_positions info).2),
           XElem.mk "qual:listOfTransitions" [] (xl (add_transitions info))])])

/-- The XML declaration emitted by `tree.write(..., xml_declaration=True)`. -/
def xmlDecl : String := "<?xml version=\x271.0\x27 encoding=\x27UTF-8\x27?>"

/-- `write_qual` (lines 99-117): serialize the assembled tree; the result
is the content of the output file, or the exception raised while writing. -/
def write_qual (info : SpeciesTable) : Except String String :=
  match (qualRoot info).serialize with
  | Except.error e => Except.error e
  | Except.ok s => Except.ok (xmlDecl ++ s)

/-- `read_celldesigner` (lines 19-27): reject a root tag other than the
SBML Level 2 Version 4 one with `exit(1)` after printing the message,
then run `species_info` and `get_transitions` on the model element
(`species_info(None)` would raise if the model element is absent). -/
def read_celldesigner (doc : XMLDoc) : Except String (SpeciesTable × List String) :=
  if doc.rootTag = expectedRoot then
    match doc.modelElem with
    | none => Except.error "AttributeError: NoneType object has no attribute findall"
    | some m =>
      match species_info m with
      | Except.error e => Except.error e
      | Except.ok t => get_transitions m t
  else
    Except.error "Currently limited to SBML Level 2 Version 4"

/-- `main` (lines 181-190) after argument handling: parse and extract,
then write the output file. The `ok` value is the written file content
together with the diagnostic lines; an `error` means the program
terminated with a failure indication and the output path was never
written. -/
def mainProg (doc : XMLDoc) : Except String (String × List String) :=
  match read_celldesigner doc with
  | Except.error e => Except.error e
  | Except.ok (info, diags) =>
    match write_qual info with
    | Except.error e => Except.error e
    | Except.ok out => Except.ok (out, diags)

/-- A complete bounds element used by the concrete test documents. -/
def bEx : CDBounds := { x := some "10", y := some "20", h := some "30", w := some "40" }

/-- Simple species alias `sa1` (species `s1`), placed in a compartment. -/
def aliasEx1 : CDAlias :=
  { idAttr := some "sa1", speciesAttr := some "s1", compartmentAliasAttr := some "ca1",
    activityElem := some (some "active"), boundsElem := some bEx }

/-- Simple species alias `sa2` (species `s2`), placed in a compartment. -/
def aliasEx2 : CDAlias :=
  { idAttr := some "sa2", speciesAttr := some "s2", compartmentAliasAttr := some "ca1",
    activityElem := some (some "active"), boundsElem := some bEx }

/-- Species definition `s1`, a PROTEIN named `P53`. -/
def spEx1 : SBMLSpecies :=
  { idAttr := some "s1", nameAttr := some "P53",
    annotElem := some { clsElem := some (some "PROTEIN"), listOfModsElem := none } }

/-- Species definition `s2`, a GENE named `MDM2`. -/
def spEx2 : SBMLSpecies :=
  { idAttr := some "s2", nameAttr := some "MDM2",
    annotElem := some { clsElem := some (some "GENE"), listOfModsElem := none } }

/-- Reaction annotation: INHIBITION with base reactant `sa1`, base
products `sa2` and the unknown `sa9`, and no modifiers. -/
def rAnnotEx : CDReactionAnnot :=
  { rtypeElem := some (some "INHIBITION"), baseReactants := [some "sa1"],
    baseProducts := [some "sa2", some "sa9"], modifications := [] }

/-- The reaction element wrapping `rAnnotEx`. -/
def reacEx : CDReaction := { ext := some rAnnotEx }

/-- The model of the running example: the spec's example scenario plus an
unknown product `sa9` on the reaction. -/
def mEx : CDModel :=
  { complexSpeciesAliases := [], speciesAliases := [aliasEx1, aliasEx2],
    listOfSpecies := [spEx1, spEx2], reactions := [reacEx] }

/-- The example document with the correct root tag. -/
def docEx : XMLDoc := { rootTag := expectedRoot, modelElem := some mEx }

/-- The species table extracted from `mEx` by `species_info`. -/
def tEx : SpeciesTable := (species_info mEx).toOption.getD []

/-- A compartment-placed alias lacking the `cd:activity` element. -/
def aliasNoAct : CDAlias :=
  { idAttr := some "sa1", speciesAttr := some "s1", compartmentAliasAttr := some "ca1",
    activityElem := none, boundsElem := some bEx }

/-- Model whose only alias lacks the activity element. -/
def mNoAct : CDModel :=
  { complexSpeciesAliases := [], speciesAliases := [aliasNoAct],
    listOfSpecies := [spEx1], reactions := [] }

/-- A compartment-placed alias lacking the `cd:bounds` element. -/
def aliasNoBounds : CDAlias :=
  { idAttr := some "sa1", speciesAttr := some "s1", compartmentAliasAttr := some "ca1",
    activityElem := some (some "active"), boundsElem := none }

/-- Model whose only alias lacks the bounds element. -/
def mNoBounds : CDModel :=
  { complexSpeciesAliases := [], speciesAliases := [aliasNoBounds],
    listOfSpecies := [spEx1], reactions := [] }

/-- Model whose only alias references a species definition that does not
exist. -/
def mNoDef : CDModel :=
  { complexSpeciesAliases := [],
    speciesAliases := [{ aliasEx1 with speciesAttr := some "missing" }],
    listOfSpecies := [spEx1], reactions := [] }

/-- Species definition `s1` without an `sbml:annotation` element. -/
def spNoAnnot : SBMLSpecies := { idAttr := some "s1", nameAttr := some "P53", annotElem := none }

/-- Model whose alias resolves to a species definition without an
annotation element. -/
def mNoAnnot : CDModel :=
  { complexSpeciesAliases := [], speciesAliases := [aliasEx1],
    listOfSpecies := [spNoAnnot], reactions := [] }

/-- Species definition `s1` whose annotation has neither a class
sub-element nor a modification list. -/
def spBareAnnot : SBMLSpecies :=
  { idAttr := some "s1", nameAttr := some "P53",
    annotElem := some { clsElem := none, listOfModsElem := none } }

/-- Model whose alias resolves to `spBareAnnot`: class and modifications
must default. -/
def mBareAnnot : CDModel :=
  { complexSpeciesAliases := [], speciesAliases := [aliasEx1],
    listOfSpecies := [spBareAnnot], reactions := [] }

/-- Species definition `s1` without a `name` attribute. -/
def spNoName : SBMLSpecies :=
  { idAttr := some "s1", nameAttr := none,
    annotElem := some { clsElem := some (some "PROTEIN"), listOfModsElem := none } }

/-- Model whose alias resolves to a species definition without a name. -/
def mNoName : CDModel :=
  { complexSpeciesAliases := [], speciesAliases := [aliasEx1],
    listOfSpecies := [spNoName], reactions := [] }

/-- The document for `mNoName`, with the correct root tag. -/
def docNoName : XMLDoc := { rootTag := expectedRoot, modelElem := some mNoName }

/-- The species table extracted from `mNoName`. -/
def tNoName : SpeciesTable := (species_info mNoName).toOption.getD []

/-- An influence with one base reactant and one INHIBITION modifier. -/
def influW : ReactionInfluence :=
  { rtype := some "STATE_TRANSITION", reacs := [some "sa1"],
    mods := [(some "INHIBITION", some "sa3")] }

/-- A document whose root tag is the bare local name, without the SBML
Level 2 Version 4 namespace. -/
def docBadRoot : XMLDoc := { rootTag := "sbml", modelElem := some mEx }

/-! Helper lemmas. -/

theorem withIdx_append (n : Nat) (xs ys : List α) :
    withIdx n (xs ++ ys) = withIdx n xs ++ withIdx (n + xs.length) ys := by
  induction xs generalizing n with
  | nil => simp [withIdx]
  | cons x xs ih =>
    simp [withIdx, ih, Nat.add_assoc, Nat.add_comm 1 xs.length]

theorem withIdx_get (n : Nat) (l : List α) (k : Nat) :
    (withIdx n l)[k]? = l[k]?.map (fun a => (n + k, a)) := by
  induction l generalizing n k with
  | nil => simp [withIdx]
  | cons a as ih =>
    cases k with
    | zero => simp [withIdx]
    | succ k =>
      simp only [withIdx, List.getElem?_cons_succ]
      have h1 : n + 1 + k = n + (k + 1) := by omega
      rw [ih, h1]

theorem entriesLoop_spec (s : Option String) (es : List (PyTag × Option String)) :
    ∀ (acc : List XElem) (idx : Nat),
    entriesLoop s es (acc, idx) =
      (acc ++ (withIdx idx es).map (fun p => inputElem s p.2.1 p.2.2 p.1), idx + es.length) := by
  induction es with
  | nil => intro acc idx; simp [entriesLoop, withIdx]
  | cons e es ih =>
    intro acc idx
    simp [entriesLoop, withIdx, ih, Nat.add_assoc, Nat.add_comm 1 es.length]

theorem inputsLoop_spec (s : Option String) (rs : List ReactionInfluence) :
    ∀ (acc : List XElem) (idx : Nat),
    inputsLoop s rs (acc, idx) =
      (acc ++ (withIdx idx (allEntries rs)).map (fun p => inputElem s p.2.1 p.2.2 p.1),
       idx + (allEntries rs).length) := by
  induction rs with
  | nil => intro acc idx; simp [inputsLoop, allEntries, withIdx]
  | cons r rs ih =>
    intro acc idx
    simp [inputsLoop, allEntries, entriesLoop_spec, ih, withIdx_append,
      Nat.add_assoc, List.append_assoc]

theorem inputElem_sign (s : Option String) (tag : PyTag) (modifier : Option String) (k : Nat) :
    (inputElem s tag modifier k).attr "qual:sign" =
      some (some (if tag = PyTag.str (some "INHIBITION") then "negative" else "positive")) := by
  have heq : tag.eqLit "INHIBITION" = decide (tag = PyTag.str (some "INHIBITION")) := by
    cases tag with
    | idx n => simp [PyTag.eqLit]
    | str o =>
      cases o with
      | none => simp [PyTag.eqLit]
      | some v => by_cases hv : v = "INHIBITION" <;> simp [PyTag.eqLit, hv]
  have h0 : (inputElem s tag modifier k).attr "qual:sign" =
      some (some (if tag.eqLit "INHIBITION" then "negative" else "positive")) := rfl
  rw [h0, heq]
  simp

/-- C1: an emitted input has sign `negative` exactly when the type tag on
the contributing entry is the literal string `INHIBITION`; reactant
entries carry a positional integer tag, which never equals that string,
so every reactant-derived input is `positive`. -/
theorem c1_input_sign_rule (s : Option String) (rs : List ReactionInfluence)
    (k : Nat) (tag : PyTag) (modifier : Option String)
    (h : (allEntries rs)[k]? = some (tag, modifier)) :
    (inputsLoop s rs ([], 0)).1[k]? = some (inputElem s tag modifier k) ∧
    ((inputElem s tag modifier k).attr "qual:sign" = some (some "negative") ↔
      tag = PyTag.str (some "INHIBITION")) ∧
    (inputElem s tag modifier k).attr "qual:sign" =
      some (some (if tag = PyTag.str (some "INHIBITION") then "negative" else "positive")) := by
  have hloop := inputsLoop_spec s rs [] 0
  have hget : (inputsLoop s rs ([], 0)).1[k]? = some (inputElem s tag modifier k) := by
    rw [hloop]
    simp [withIdx_get, h]
  refine ⟨hget, ?_, inputElem_sign s tag modifier k⟩
  rw [inputElem_sign]
  by_cases ht : tag = PyTag.str (some "INHIBITION") <;> simp [ht]

theorem c1_input_sign_rule_witness :
    (inputsLoop (some "sa2") [influW] ([], 0)).1[1]? =
      some (inputElem (some "sa2") (PyTag.str (some "INHIBITION")) (some "sa3") 1) ∧
    ((inputElem (some "sa2") (PyTag.str (some "INHIBITION")) (some "sa3") 1).attr "qual:sign" =
        some (some "negative") ↔
      PyTag.str (some "INHIBITION") = PyTag.str (some "INHIBITION")) ∧
    (inputElem (some "sa2") (PyTag.str (some "INHIBITION")) (some "sa3") 1).attr "qual:sign" =
      some (some (if PyTag.str (some "INHIBITION") = PyTag.str (some "INHIBITION")
        then "negative" else "positive")) :=
  c1_input_sign_rule (some "sa2") [influW] 1 (PyTag.str (some "INHIBITION")) (some "sa3") rfl

/-- C5: the inputs of a species are emitted by walking its influences in
order, reactants (with their positional index as tag) before declared
modifiers, with one running counter starting at 0 that is not reset
between influences; the input at position `k` carries the synthetic id
`tr_<species>_in_<k>`. -/
theorem c5_input_order_and_ids (s : Option String) (rs : List ReactionInfluence)
    (k : Nat) (tag : PyTag) (modifier : Option String)
    (h : (allEntries rs)[k]? = some (tag, modifier)) :
    (inputsLoop s rs ([], 0)).1 =
      (withIdx 0 (allEntries rs)).map (fun p => inputElem s p.2.1 p.2.2 p.1) ∧
    (inputsLoop s rs ([], 0)).1[k]? = some (inputElem s tag modifier k) ∧
    (inputElem s tag modifier k).attr "qual:id" =
      some (some ("tr_" ++ pyStr s ++ "_in_" ++ toString k)) := by
  have hloop := inputsLoop_spec s rs [] 0
  refine ⟨by rw [hloop]; simp, ?_, rfl⟩
  rw [hloop]
  simp [withIdx_get, h]

theorem c5_input_order_and_ids_witness :
    (inputsLoop (some "sa2") [influW] ([], 0)).1 =
      (withIdx 0 (allEntries [influW])).map (fun p => inputElem (some "sa2") p.2.1 p.2.2 p.1) ∧
    (inputsLoop (some "sa2") [influW] ([], 0)).1[0]? =
      some (inputElem (some "sa2") (PyTag.idx 0) (some "sa1") 0) ∧
    (inputElem (some "sa2") (PyTag.idx 0) (some "sa1") 0).attr "qual:id" =
      some (some ("tr_" ++ pyStr (some "sa2") ++ "_in_" ++ toString 0)) :=
  c5_input_order_and_ids (some "sa2") [influW] 0 (PyTag.idx 0) (some "sa1") rfl

/-- C4: the emitted document holds exactly one qualitative-species element
and exactly one transition element per table record (both lists are the
image of the table under the per-record constructors, in table order);
every transition carries exactly one output (effect `assignmentLevel`,
referencing the species) and exactly one function term, the default term
with result level 0; a species with no influences gets an empty input
list. -/
theorem c4_transition_shape (info : SpeciesTable) (s : Option String) (d : SpeciesRecord) :
    (add_positions info).2 = info.map (fun p => qualSpeciesElem p.1 p.2) ∧
    add_transitions info = info.map (fun p => transitionElem p.1 p.2) ∧
    transitionElem s d =
      XElem.mk "qual:transition" [("qual:id", some ("tr_" ++ pyStr s))]
        (xl [XElem.mk "qual:listOfInputs" [] (xl (inputsLoop s d.transitions ([], 0)).1),
             XElem.mk "qual:listOfOutputs" [] (xl [outputElem s]),
             XElem.mk "qual:listOfFunctionTerms" [] (xl [defaultTermElem])]) ∧
    (outputElem s).attr "qual:transitionEffect" = some (some "assignmentLevel") ∧
    (outputElem s).attr "qual:qualitativeSpecies" = some s ∧
    defaultTermElem.attr "qual:resultLevel" = some (some "0") ∧
    (inputsLoop s ([] : List ReactionInfluence) ([], 0)).1 = [] :=
  ⟨rfl, rfl, rfl, rfl, rfl, rfl, rfl⟩

/-- C7: a document whose root element is not the SBML Level 2 Version 4
root makes the program terminate with the printed message; no output is
produced. -/
theorem c7_root_mismatch_fatal (doc : XMLDoc) (h : doc.rootTag ≠ expectedRoot) :
    mainProg doc = Except.error "Currently limited to SBML Level 2 Version 4" := by
  simp [mainProg, read_celldesigner, h]

theorem c7_root_mismatch_fatal_witness :
    docBadRoot.rootTag ≠ expectedRoot ∧
    mainProg docBadRoot = Except.error "Currently limited to SBML Level 2 Version 4" :=
  ⟨by decide, c7_root_mismatch_fatal docBadRoot (by decide)⟩

/-- C8: the conversion is a pure function of the parsed document, so two
runs on the same unchanged input produce identical output file contents
(byte-identical, diagnostics included). -/
theorem c8_deterministic_output (doc : XMLDoc) (r1 r2 : Except String (String × List String))
    (h1 : mainProg doc = r1) (h2 : mainProg doc = r2) : r1 = r2 := by
  rw [← h1, ← h2]

theorem c8_deterministic_output_witness : mainProg docEx = mainProg docEx :=
  c8_deterministic_output docEx (mainProg docEx) (mainProg docEx) rfl rfl

/-- C9: species extraction raises (rather than defaulting or skipping) on
a compartment-placed alias lacking an activity element, lacking a bounds
element, referencing an absent species definition, or referencing a
species definition without an annotation element; only a missing class
and a missing modification list are defaulted (last conjunct). -/
theorem c9_unguarded_lookups_raise :
    (∃ e, species_info mNoAct = Except.error e) ∧
    (∃ e, species_info mNoBounds = Except.error e) ∧
    (∃ e, species_info mNoDef = Except.error e) ∧
    (∃ e, species_info mNoAnnot = Except.error e) ∧
    (∃ t, species_info mBareAnnot = Except.ok t) :=
  ⟨⟨_, rfl⟩, ⟨_, rfl⟩, ⟨_, rfl⟩, ⟨_, rfl⟩, ⟨_, rfl⟩⟩

theorem dictMem_isSome (k : Option String) (t : SpeciesTable) :
    dictMem k t = (dictGet k t).isSome := by
  induction t with
  | nil => rfl
  | cons e t ih =>
    by_cases h : e.1 = k
    · simp [dictMem, dictGet, h]
    · simpa [dictMem, dictGet, h] using ih

theorem dictGet_appendTrans (k p : Option String) (i : ReactionInfluence) (t : SpeciesTable) :
    dictGet k (dictAppendTrans p i t) =
      if k = p then
        (dictGet k t).map (fun r => { r with transitions := r.transitions ++ [i] })
      else dictGet k t := by
  induction t with
  | nil => by_cases h : k = p <;> simp [dictAppendTrans, dictGet, h]
  | cons e t ih =>
    by_cases hep : e.1 = p <;> by_cases hkp : k = p
    · subst hkp
      simp [dictAppendTrans, dictGet, hep]
    · have hek : ¬ (e.1 = k) := fun hx => hkp (hx.symm.trans hep)
      have hpk : ¬ (p = k) := fun hx => hkp hx.symm
      simpa [dictAppendTrans, dictGet, hep, hek, hkp, hpk] using ih
    · subst hkp
      simpa [dictAppendTrans, dictGet, hep] using ih
    · by_cases hek : e.1 = k <;>
        simpa [dictAppendTrans, dictGet, hep, hek, hkp] using ih

theorem dictMem_appendTrans (q p : Option String) (i : ReactionInfluence) (t : SpeciesTable) :
    dictMem q (dictAppendTrans p i t) = dictMem q t := by
  rw [dictMem_isSome, dictMem_isSome, dictGet_appendTrans]
  split
  · cases dictGet q t <;> simp
  · rfl

theorem applyProds_fst (influ : ReactionInfluence) (ps : List (Option String)) :
    ∀ (info : SpeciesTable) (diags : List String) (k : Option String),
    dictGet k (applyProds influ ps (info, diags)).1 =
      (dictGet k info).map (fun r =>
        { r with transitions := r.transitions ++
            List.replicate (ps.countP (fun p => decide (p = k))) influ }) := by
  induction ps with
  | nil =>
    intro info diags k
    have h0 : (applyProds influ [] (info, diags)).1 = info := rfl
    rw [h0]
    cases dictGet k info <;> simp
  | cons p ps ih =>
    intro info diags k
    by_cases hm : dictMem p info
    · simp only [applyProds, hm, if_true]
      rw [ih, dictGet_appendTrans]
      by_cases hkp : k = p
      · subst hkp
        rw [if_pos rfl]
        cases hg : dictGet k info with
        | none => simp
        | some r =>
          simp [List.countP_cons, List.append_assoc, List.replicate_succ]
      · rw [if_neg hkp]
        have hpk : ¬ (p = k) := fun hx => hkp hx.symm
        simp [List.countP_cons, hpk]
    · have hsplit : applyProds influ (p :: ps) (info, diags) =
          applyProds influ ps (info, diags ++ ["ignoring unknown species " ++ pyStr p]) := by
        simp [applyProds, hm]
      rw [hsplit, ih]
      by_cases hkp : k = p
      · subst hkp
        have hg : dictGet k info = none := by
          rw [dictMem_isSome] at hm
          cases h : dictGet k info with
          | none => rfl
          | some r => rw [h] at hm; simp at hm
        simp [hg]
      · have hpk : ¬ (p = k) := fun hx => hkp hx.symm
        simp [List.countP_cons, hpk]

theorem applyProds_snd (influ : ReactionInfluence) (ps : List (Option String)) :
    ∀ (info : SpeciesTable) (diags : List String),
    (applyProds influ ps (info, diags)).2 =
      diags ++ (ps.filter (fun p => !dictMem p info)).map
        (fun p => "ignoring unknown species " ++ pyStr p) := by
  induction ps with
  | nil => intro info diags; simp [applyProds]
  | cons p ps ih =>
    intro info diags
    by_cases hm : dictMem p info
    · have hsplit : applyProds influ (p :: ps) (info, diags) =
          applyProds influ ps (dictAppendTrans p influ info, diags) := by
        simp [applyProds, hm]
      rw [hsplit, ih]
      have hfc : (fun q => !dictMem q (dictAppendTrans p influ info)) =
          (fun q => !dictMem q info) := by
        funext q; rw [dictMem_appendTrans]
      rw [hfc]
      simp [List.filter_cons, hm]
    · have hsplit : applyProds influ (p :: ps) (info, diags) =
          applyProds influ ps (info, diags ++ ["ignoring unknown species " ++ pyStr p]) := by
        simp [applyProds, hm]
      rw [hsplit, ih]
      simp [List.filter_cons, hm]

/-- C3: a reaction with a readable annotation never aborts the run; a
table entry gains one copy of the reaction's influence per occurrence of
its key in the base-product list (so exactly the reactions naming it as a
product, and only for keys already in the table — absent keys stay
absent); each unknown product occurrence adds exactly one diagnostic line,
and entries whose key is not among the products are unchanged. -/
theorem c3_reaction_contribution (r : CDReaction) (A : CDReactionAnnot) (rt : Option String)
    (info : SpeciesTable) (diags : List String) (k : Option String)
    (hA : r.ext = some A) (hrt : A.rtypeElem = some rt) :
    ∃ info2 diags2,
      processReaction (info, diags) r = Except.ok (info2, diags2) ∧
      dictGet k info2 = (dictGet k info).map (fun rec =>
        { rec with transitions := (rec.transitions ++
            List.replicate (A.baseProducts.countP (fun p => decide (p = k)))
              (influenceOf A rt)) }) ∧
      diags2 = diags ++ (A.baseProducts.filter (fun p => !dictMem p info)).map
        (fun p => "ignoring unknown species " ++ pyStr p) := by
  refine ⟨(applyProds (influenceOf A rt) A.baseProducts (info, diags)).1,
    (applyProds (influenceOf A rt) A.baseProducts (info, diags)).2,
    ?_,
    applyProds_fst (influenceOf A rt) A.baseProducts info diags k,
    applyProds_snd (influenceOf A rt) A.baseProducts info diags⟩
  simp [processReaction, hA, hrt]

theorem c3_reaction_contribution_witness :
    ∃ info2 diags2,
      processReaction (tEx, []) reacEx = Except.ok (info2, diags2) ∧
      dictGet (some "sa2") info2 = (dictGet (some "sa2") tEx).map (fun rec =>
        { rec with transitions := (rec.transitions ++
            List.replicate (rAnnotEx.baseProducts.countP (fun p => decide (p = some "sa2")))
              (influenceOf rAnnotEx (some "INHIBITION"))) }) ∧
      diags2 = [] ++ (rAnnotEx.baseProducts.filter (fun p => !dictMem p tEx)).map
        (fun p => "ignoring unknown species " ++ pyStr p) :=
  c3_reaction_contribution reacEx rAnnotEx (some "INHIBITION") tEx [] (some "sa2") rfl rfl

theorem processAlias_key (m : CDModel) (a : CDAlias) (kr : Option String × SpeciesRecord)
    (h : processAlias m a = Except.ok kr) : kr.1 = a.idAttr := by
  unfold processAlias at h
  repeat' split at h
  all_goals simp_all [Prod.ext_iff]

theorem dictInsert_notMem (k : Option String) (v : SpeciesRecord) (t : SpeciesTable)
    (h : k ∉ t.map Prod.fst) : dictInsert k v t = t ++ [(k, v)] := by
  induction t with
  | nil => rfl
  | cons e t ih =>
    simp only [List.map_cons, List.mem_cons] at h
    push_neg at h
    have hek : ¬ (e.1 = k) := fun hx => h.1 hx.symm
    simp [dictInsert, hek, ih h.2]

theorem speciesLoop_cons_ok (m : CDModel) (a : CDAlias) (as : List CDAlias)
    (acc : SpeciesTable) (kr : Option String × SpeciesRecord)
    (hpa : processAlias m a = Except.ok kr) :
    speciesLoop m (a :: as) acc = speciesLoop m as (dictInsert kr.1 kr.2 acc) := by
  simp [speciesLoop, hpa]

theorem speciesLoop_cons_err (m : CDModel) (a : CDAlias) (as : List CDAlias)
    (acc : SpeciesTable) (e : String)
    (hpa : processAlias m a = Except.error e) :
    speciesLoop m (a :: as) acc = Except.error e := by
  simp [speciesLoop, hpa]

theorem speciesLoop_keys (m : CDModel) :
    ∀ (as : List CDAlias) (acc t : SpeciesTable),
    (as.map (fun a => a.idAttr)).Nodup →
    (∀ a ∈ as, a.idAttr ∉ acc.map Prod.fst) →
    speciesLoop m as acc = Except.ok t →
    t.map Prod.fst = acc.map Prod.fst ++ as.map (fun a => a.idAttr) := by
  intro as
  induction as with
  | nil =>
    intro acc t _ _ h
    simp only [speciesLoop] at h
    cases h
    simp
  | cons a as ih =>
    intro acc t hnd hdisj h
    cases hpa : processAlias m a with
    | error e => rw [speciesLoop_cons_err m a as acc e hpa] at h; cases h
    | ok kr =>
      rw [speciesLoop_cons_ok m a as acc kr hpa] at h
      have hk : kr.1 = a.idAttr := processAlias_key m a kr hpa
      have hnotin : kr.1 ∉ acc.map Prod.fst := by
        rw [hk]; exact hdisj a (List.mem_cons_self a as)
      rw [dictInsert_notMem kr.1 kr.2 acc hnotin] at h
      have hnd2 : (as.map (fun a2 => a2.idAttr)).Nodup := (List.nodup_cons.mp hnd).2
      have hhead : a.idAttr ∉ as.map (fun a2 => a2.idAttr) := (List.nodup_cons.mp hnd).1
      have hdisj2 : ∀ a2 ∈ as, a2.idAttr ∉ (acc ++ [(kr.1, kr.2)]).map Prod.fst := by
        intro a2 ha2
        simp only [List.map_append, List.mem_append]
        rintro (hin | hin)
        · exact hdisj a2 (List.mem_cons_of_mem a ha2) hin
        · simp only [List.map_cons, List.map_nil, List.mem_singleton] at hin
          rw [hk] at hin
          refine hhead ?_
          rw [← hin]
          exact List.mem_map_of_mem (fun a2 => a2.idAttr) ha2
      have hres := ih (acc ++ [(kr.1, kr.2)]) t hnd2 hdisj2 h
      rw [hres]
      simp [hk]

/-- C2: on success, the keys of the species table are exactly the ids of
the compartment-placed complex aliases followed by those of the
compartment-placed simple aliases, one record per such alias, in document
order; aliases without a compartment association never contribute a key
(assuming the alias ids are pairwise distinct). -/
theorem c2_species_table_coverage (m : CDModel) (t : SpeciesTable)
    (hok : species_info m = Except.ok t)
    (hnd : ((selectedAliases m).map (fun a => a.idAttr)).Nodup) :
    t.map Prod.fst = (selectedAliases m).map (fun a => a.idAttr) := by
  have h := speciesLoop_keys m (selectedAliases m) [] t hnd (by intro a _; simp) hok
  simpa using h

theorem c2_species_table_coverage_witness :
    tEx.map Prod.fst = (selectedAliases mEx).map (fun a => a.idAttr) :=
  c2_species_table_coverage mEx tEx rfl (by decide)

/-- C6: an alias whose lookups succeed but whose species annotation lacks
a class sub-element or a modification list is still extracted without
failure; its class defaults to `PROTEIN` and its modifications to the
empty list. -/
theorem c6_missing_class_mods_default (m : CDModel) (a : CDAlias) (act : Option String)
    (sref : String) (s : SBMLSpecies) (A : CDSpeciesAnnot) (b : CDBounds)
    (hact : a.activityElem = some act)
    (hsref : a.speciesAttr = some sref)
    (hfind : m.listOfSpecies.find? (fun x => decide (x.idAttr = some sref)) = some s)
    (hannot : s.annotElem = some A)
    (hb : a.boundsElem = some b) :
    processAlias m a = Except.ok (a.idAttr,
      { activity := act, x := b.x, y := b.y, h := b.h, w := b.w, transitions := [],
        name := s.nameAttr, type := get_class A.clsElem,
        modifications := get_mods A.listOfModsElem }) ∧
    (A.clsElem = none → get_class A.clsElem = some "PROTEIN") ∧
    (A.listOfModsElem = none → get_mods A.listOfModsElem = []) := by
  refine ⟨?_, ?_, ?_⟩
  · simp [processAlias, hact, hsref, hfind, hannot, hb]
  · intro h0; rw [h0]; rfl
  · intro h0; rw [h0]; rfl

theorem c6_missing_class_mods_default_witness :
    processAlias mBareAnnot aliasEx1 = Except.ok (some "sa1",
      { activity := some "active", x := some "10", y := some "20", h := some "30",
        w := some "40", transitions := [], name := some "P53", type := some "PROTEIN",
        modifications := [] }) ∧
    get_class none = some "PROTEIN" ∧
    get_mods none = [] := by
  have h := c6_missing_class_mods_default mBareAnnot aliasEx1 (some "active") "s1" spBareAnnot
    { clsElem := none, listOfModsElem := none } bEx rfl rfl rfl rfl rfl
  exact ⟨h.1, h.2.1 rfl, h.2.2 rfl⟩

/-- C10: a compartment-placed alias whose species definition has no name
attribute is extracted with `name = None`; parsing and extraction succeed,
but the run then fails while emitting the output, when the serializer
meets the `None` value of the `qual:name` attribute. -/
theorem c10_missing_name_fatal :
    read_celldesigner docNoName = Except.ok (tNoName, []) ∧
    (∃ r, dictGet (some "sa1") tNoName = some r ∧ r.name = none) ∧
    mainProg docNoName =
      Except.error "TypeError: cannot serialize None (attribute qual:name)" :=
  ⟨rfl, ⟨_, rfl, rfl⟩, rfl⟩
